import Mathlib

/-!
# Verification of the `advisory` retrieval core

A shallow embedding of the core of the `advisory` repository
(`advisory.go`): the `Document`/`Result` data model, the MD5
content-hash identity used by `chromemStore.Add`, the fluent `Query`
builder with its `Exact`/`Regex` post-filtering, `chromemStore.Search`,
the markdown-chunking metadata construction, and an operational model of
the bounded-concurrency batch preparation in `chromemStore.Add`.

Modelling conventions:
- Go `map[string]string` becomes an association list with unique keys
  (`Str2Str`); a read of an absent key yields `""`, as in Go.
- Go pointers (`*Query`) become `Option Query`; a nil-pointer method
  call that dereferences the receiver becomes a `GoFault.nilDeref`.
- Go `panic` becomes `Except.error (GoFault.panicked msg)`.
- A compiled `*regexp.Regexp` is, for matching purposes, a predicate
  `String → Bool`; compilation (`regexp.MustCompile`), being the Go
  standard library, is a parameter `String → Option Matcher` whose
  `none` result models a pattern that does not compile.
- The chromem collection (`QueryWithOptions`, `AddDocuments`) is the
  external vector-store collaborator: its ranked answer is a parameter
  of `chromemStore.Search`, and `chromemStore.Add` is modelled by the
  record-preparation it performs before handing the batch over.
-/

/-- Go `map[string]string` as an association list with unique keys. -/
abbrev Str2Str := List (String × String)

/-- Go map assignment `m[k] = v`: overwrite the entry for `k` if present,
otherwise add it. -/
def mapSet {α : Type} (m : List (String × α)) (k : String) (v : α) :
    List (String × α) :=
  if m.any (fun p => p.1 == k) then
    m.map (fun p => if p.1 == k then (k, v) else p)
  else
    m ++ [(k, v)]

/-- Go map read `m[k]` on a string-valued map: the stored value, or the
zero value `""` when the key is absent. -/
def strGetD (m : Str2Str) (k : String) : String :=
  (List.lookup k m).getD ""

/-- Build a Go map from a list of key/value pairs inserted in order
(later duplicates overwrite earlier ones). -/
def buildMap {α : Type} (ps : List (String × α)) : List (String × α) :=
  ps.foldl (fun m p => mapSet m p.1 p.2) []

/-- Group a flat variadic `k1, v1, k2, v2, ...` argument list into pairs,
as the `for i := 0; i < len(kv); i += 2` loops of `WithExact`/`WithRegex`
read it (a trailing unpaired element is never reached: the methods panic
first on odd length). -/
def toPairs : List String → List (String × String)
  | k :: v :: rest => (k, v) :: toPairs rest
  | _ => []

/-! ## MD5 (`crypto/md5` as used by `md5hash`, advisory.go:214-217)

A direct implementation of RFC 1321 over byte lists, with 32-bit words
represented as `Nat` reduced `% 2^32`. -/

/-- Bitwise complement of a 32-bit word. -/
def not32 (x : Nat) : Nat := 4294967295 - x

/-- Left-rotation of a 32-bit word. -/
def rotl32 (x n : Nat) : Nat :=
  ((x <<< n) ||| (x >>> (32 - n))) % 4294967296

/-- The 64 MD5 round constants `K[i] = floor(2^32 * |sin(i+1)|)`. -/
def md5K : List Nat :=
  [0xd76aa478, 0xe8c7b756, 0x242070db, 0xc1bdceee,
   0xf57c0faf, 0x4787c62a, 0xa8304613, 0xfd469501,
   0x698098d8, 0x8b44f7af, 0xffff5bb1, 0x895cd7be,
   0x6b901122, 0xfd987193, 0xa679438e, 0x49b40821,
   0xf61e2562, 0xc040b340, 0x265e5a51, 0xe9b6c7aa,
   0xd62f105d, 0x02441453, 0xd8a1e681, 0xe7d3fbc8,
   0x21e1cde6, 0xc33707d6, 0xf4d50d87, 0x455a14ed,
   0xa9e3e905, 0xfcefa3f8, 0x676f02d9, 0x8d2a4c8a,
   0xfffa3942, 0x8771f681, 0x6d9d6122, 0xfde5380c,
   0xa4beea44, 0x4bdecfa9, 0xf6bb4b60, 0xbebfbc70,
   0x289b7ec6, 0xeaa127fa, 0xd4ef3085, 0x04881d05,
   0xd9d4d039, 0xe6db99e5, 0x1fa27cf8, 0xc4ac5665,
   0xf4292244, 0x432aff97, 0xab9423a7, 0xfc93a039,
   0x655b59c3, 0x8f0ccc92, 0xffeff47d, 0x85845dd1,
   0x6fa87e4f, 0xfe2ce6e0, 0xa3014314, 0x4e0811a1,
   0xf7537e82, 0xbd3af235, 0x2ad7d2bb, 0xeb86d391]

/-- The per-round left-rotation amounts. -/
def md5S : List Nat :=
  [7, 12, 17, 22, 7, 12, 17, 22, 7, 12, 17, 22, 7, 12, 17, 22,
   5,  9, 14, 20, 5,  9, 14, 20, 5,  9, 14, 20, 5,  9, 14, 20,
   4, 11, 16, 23, 4, 11, 16, 23, 4, 11, 16, 23, 4, 11, 16, 23,
   6, 10, 15, 21, 6, 10, 15, 21, 6, 10, 15, 21, 6, 10, 15, 21]

/-- Read the `g`-th little-endian 32-bit word of a 64-byte block. -/
def leWord (block : List Nat) (g : Nat) : Nat :=
  block.getD (4 * g) 0 + 256 * block.getD (4 * g + 1) 0 +
    65536 * block.getD (4 * g + 2) 0 + 16777216 * block.getD (4 * g + 3) 0

/-- One MD5 round on the state `(A, B, C, D)`. -/
def md5round (block : List Nat) (st : Nat × Nat × Nat × Nat) (i : Nat) :
    Nat × Nat × Nat × Nat :=
  let A := st.1
  let B := st.2.1
  let C := st.2.2.1
  let D := st.2.2.2
  let fg : Nat × Nat :=
    if i < 16 then ((B &&& C) ||| (not32 B &&& D), i)
    else if i < 32 then ((D &&& B) ||| (not32 D &&& C), (5 * i + 1) % 16)
    else if i < 48 then (B ^^^ C ^^^ D, (3 * i + 5) % 16)
    else (C ^^^ (B ||| not32 D), (7 * i) % 16)
  let f := (fg.1 + A + md5K.getD i 0 + leWord block fg.2) % 4294967296
  (D, (B + rotl32 f (md5S.getD i 0)) % 4294967296, B, C)

/-- Process one 64-byte block, updating the running digest state. -/
def md5block (st : Nat × Nat × Nat × Nat) (block : List Nat) :
    Nat × Nat × Nat × Nat :=
  let r := (List.range 64).foldl (md5round block) st
  ((st.1 + r.1) % 4294967296, (st.2.1 + r.2.1) % 4294967296,
   (st.2.2.1 + r.2.2.1) % 4294967296, (st.2.2.2 + r.2.2.2) % 4294967296)

/-- Split a byte list into 64-byte blocks. -/
def toBlocks (l : List Nat) : List (List Nat) :=
  if h : l = [] then []
  else l.take 64 :: toBlocks (l.drop 64)
termination_by l.length
decreasing_by
  have hl : 0 < l.length := List.length_pos.mpr h
  simp [List.length_drop]
  omega

/-- A `Nat` as `n` little-endian bytes. -/
def leBytes (n v : Nat) : List Nat :=
  (List.range n).map (fun i => (v >>> (8 * i)) % 256)

/-- MD5 padding: append `0x80`, zero-pad to 56 mod 64, then the original
bit length as a 64-bit little-endian quantity. -/
def md5pad (msg : List Nat) : List Nat :=
  let z := (119 - msg.length % 64) % 64
  msg ++ [0x80] ++ List.replicate z 0 ++ leBytes 8 ((msg.length * 8) % 2 ^ 64)

/-- The 16 digest bytes of a byte message. -/
def md5digest (msg : List Nat) : List Nat :=
  let st := (toBlocks (md5pad msg)).foldl md5block
    (0x67452301, 0xefcdab89, 0x98badcfe, 0x10325476)
  leBytes 4 st.1 ++ leBytes 4 st.2.1 ++ leBytes 4 st.2.2.1 ++ leBytes 4 st.2.2.2

/-- Lower-case hex digit. -/
def hexDigit (n : Nat) : Char :=
  if n < 10 then Char.ofNat (48 + n) else Char.ofNat (87 + n)

/-- Lower-case hex encoding of a byte list (`hex.EncodeToString`). -/
def hexEncode (bytes : List Nat) : String :=
  String.mk (bytes.flatMap (fun b => [hexDigit (b / 16), hexDigit (b % 16)]))

/-- The UTF-8 bytes of a string (`[]byte(s)` in Go). -/
def strBytes (s : String) : List Nat :=
  s.toUTF8.toList.map (fun b => b.toNat)

/-- `md5hash` (advisory.go:214-217): the hex-encoded MD5 digest of the
string's bytes. -/
def md5hash (s : String) : String :=
  hexEncode (md5digest (strBytes s))

/-! ## Data model (advisory.go:81-89) -/

/-- `Document` (advisory.go:81-84): a text chunk with provenance
metadata. -/
structure Document where
  Content : String
  Metadata : Str2Str
deriving Repr, DecidableEq

/-- `Result` (advisory.go:86-89): an embedded `Document` plus a
similarity `Score`. The score is `float32` collaborator data that the
core only copies, never computes with, so it is carried at an arbitrary
type `σ`. -/
structure Result (σ : Type) where
  Document : Document
  Score : σ

/-- A record of the external chromem collection as `chromemStore.Add`
builds it (advisory.go:227-231). -/
structure ChromemDocument where
  ID : String
  Metadata : Str2Str
  Content : String
deriving Repr, DecidableEq

/-- A ranked record returned by the collaborator's
`QueryWithOptions` call (advisory.go:247), as read back by
`chromemStore.Search` (advisory.go:252-259). -/
structure ChromemResult (σ : Type) where
  Content : String
  Metadata : Str2Str
  Similarity : σ

/-! ## Query builder (advisory.go:117-190) -/

/-- A compiled `*regexp.Regexp`, for matching purposes: the predicate
`MatchString`. -/
abbrev Matcher := String → Bool

/-- `Query` (advisory.go:117-122). `Number` is a Go `int`. -/
structure Query where
  Query : String
  Exact : Str2Str
  Regex : List (String × Matcher)
  Number : Int

/-- Root-level alias for the `Query` structure, usable inside the
`Query` namespace where the bare name resolves to the `Query.Query`
field accessor. -/
abbrev GoQuery := Query

/-- A Go `panic` or runtime fault, which aborts the call instead of
returning an error value. -/
inductive GoFault where
  | panicked (msg : String)
  | nilDeref
deriving Repr, DecidableEq

/-- `(*Query).setOrDefault` (advisory.go:128-133): a nil receiver
becomes `&Query{Number: 1}`; a non-nil receiver is returned unchanged. -/
def Query.setOrDefault (q : Option GoQuery) : GoQuery :=
  match q with
  | none => { Query := "", Exact := [], Regex := [], Number := 1 }
  | some q => q

/-- `(*Query).WithQuery` (advisory.go:135-139). -/
def Query.WithQuery (q : Option GoQuery) (query : String) : GoQuery :=
  { setOrDefault q with Query := query }

/-- `NewQuery` (advisory.go:124-126): `(&Query{}).WithQuery(query)` —
note the receiver is a non-nil zero `Query`, not nil. -/
def NewQuery (query : String) : Query :=
  Query.WithQuery (some { Query := "", Exact := [], Regex := [], Number := 0 }) query

/-- `(*Query).WithExact` (advisory.go:141-152): panics on an odd
key/value list, else builds the `Exact` map and sets it on the
defaulted receiver. -/
def Query.WithExact (q : Option GoQuery) (kv : List String) :
    Except GoFault GoQuery :=
  if kv.length % 2 != 0 then
    .error (.panicked "key-values are not in pairs.")
  else
    .ok { setOrDefault q with Exact := buildMap (toPairs kv) }

/-- The compilation loop of `WithRegex` (advisory.go:159-161): compile
each value position in order; the first pattern that does not compile
makes `regexp.MustCompile` panic, modelled as `none`. -/
def compilePairs (compile : String → Option Matcher) :
    List (String × String) → Option (List (String × Matcher))
  | [] => some []
  | (k, p) :: rest =>
    match compile p with
    | none => none
    | some m =>
      match compilePairs compile rest with
      | none => none
      | some ms => some ((k, m) :: ms)

/-- `(*Query).WithRegex` (advisory.go:154-165): panics on an odd
key/value list, panics if a pattern does not compile
(`regexp.MustCompile`), else sets the compiled `Regex` map on the
defaulted receiver. -/
def Query.WithRegex (compile : String → Option Matcher) (q : Option GoQuery)
    (kv : List String) : Except GoFault GoQuery :=
  if kv.length % 2 != 0 then
    .error (.panicked "key-values are not in pairs.")
  else
    match compilePairs compile (toPairs kv) with
    | none => .error (.panicked "regexp: Compile: invalid pattern")
    | some ps => .ok { setOrDefault q with Regex := buildMap ps }

/-- `(*Query).WithNumber` (advisory.go:167-171). -/
def Query.WithNumber (q : Option GoQuery) (i : Int) : GoQuery :=
  { setOrDefault q with Number := i }

/-- `(*Query).Filter` (advisory.go:173-190): with a non-empty `Exact`
map, every exact pair must equal the metadata value (absent key reads
as `""`); otherwise with a non-empty `Regex` map, every pattern must
match the metadata value; otherwise everything passes. -/
def Query.Filter {σ : Type} (q : GoQuery) (r : Result σ) : Bool :=
  let md := r.Document.Metadata
  if q.Exact.length != 0 then
    q.Exact.all (fun kv => strGetD md kv.1 == kv.2)
  else if q.Regex.length != 0 then
    q.Regex.all (fun kr => kr.2 (strGetD md kr.1))
  else
    true


/-! ## `chromemStore.Add` preparation (advisory.go:219-238) -/

/-- The record each goroutine of `chromemStore.Add` writes into
`documents[i]` (advisory.go:227-231): the ID is the MD5 hash of the
content alone. -/
def chromemStore.prepareDoc (doc : Document) : ChromemDocument :=
  { ID := md5hash doc.Content, Metadata := doc.Metadata, Content := doc.Content }

/-- The `documents` batch `chromemStore.Add` hands to the collaborator's
`AddDocuments` once every preparation goroutine has completed
(advisory.go:236-237). -/
def chromemStore.AddBatch (docs : List Document) : List ChromemDocument :=
  docs.map chromemStore.prepareDoc

/-! ## `chromemStore.Search` (advisory.go:240-265) -/

/-- The conversion of a collaborator record into a `Result`
(advisory.go:253-259). -/
def toResult {σ : Type} (r : ChromemResult σ) : Result σ :=
  { Document := { Content := r.Content, Metadata := r.Metadata }, Score := r.Similarity }

/-- The call `query.Filter(result)` at advisory.go:260 — on the ORIGINAL
`query` pointer, not the normalized `q`: a nil `query` dereferences nil
inside `Filter` (`q.Exact`, advisory.go:176) and faults. -/
def filterCall {σ : Type} (query : Option Query) (r : Result σ) :
    Except GoFault Bool :=
  match query with
  | none => .error .nilDeref
  | some q => .ok (q.Filter r)

/-- The result loop of `chromemStore.Search` (advisory.go:251-263):
convert each ranked record in order and keep those passing
`query.Filter`; a fault in the filter call aborts the whole call. -/
def searchLoop {σ : Type} (query : Option Query) :
    List (ChromemResult σ) → Except GoFault (List (Result σ))
  | [] => .ok []
  | r :: rest =>
    match filterCall query (toResult r) with
    | .error e => .error e
    | .ok keep =>
      match searchLoop query rest with
      | .error e => .error e
      | .ok tail => .ok (if keep then toResult r :: tail else tail)

/-- The options `chromemStore.Search` passes to the collaborator's
`QueryWithOptions` (advisory.go:241-246), built from the NORMALIZED
query `q := query.setOrDefault()`: the text to embed, the pushed-down
`Where` map, and the requested candidate count `NResults`. -/
def chromemStore.searchOptions (query : Option Query) : String × Str2Str × Int :=
  ((Query.setOrDefault query).Query, (Query.setOrDefault query).Exact,
    (Query.setOrDefault query).Number)

/-- `chromemStore.Search` (advisory.go:240-265), parametrized by the
ranked records `res` the collaborator returns for
`chromemStore.searchOptions query`. The implementation consumes exactly
this one candidate list — it never issues a second lookup to backfill
filtered-out results. -/
def chromemStore.Search {σ : Type} (query : Option Query)
    (res : List (ChromemResult σ)) : Except GoFault (List (Result σ)) :=
  searchLoop query res

/-! ## `chunkMarkdown` (advisory.go:34-51)

The splitter (`textsplitter.NewMarkdownTextSplitter().SplitText`) is the
external collaborator; its output `chunks` is a parameter. The Go code
allocates (at most) ONE metadata map and stores the same map reference
into every produced `Document`, mutating `metadata["chunk"] = i` on each
iteration. The model therefore passes the single shared map's state
through the loop: the first component of the outcome is the shared map's
contents once the call returns, which is what every produced document's
`Metadata` observes from then on. -/

/-- The loop body of `chunkMarkdown` (advisory.go:43-49): set
`metadata["chunk"]` on the one shared map, then store the document with
a reference to that map. -/
def chunkLoop (m : Str2Str) (i : Nat) : List String → Str2Str × List String
  | [] => (m, [])
  | c :: rest =>
    let m2 := mapSet m "chunk" (toString i)
    let out := chunkLoop m2 (i + 1) rest
    (out.1, c :: out.2)

/-- `chunkMarkdown` (advisory.go:34-51): final contents of the single
shared metadata map, and the contents of the produced documents. A nil
metadata argument is replaced by a fresh empty map (advisory.go:39-41). -/
def chunkMarkdown (chunks : List String) (metadata : Option Str2Str) :
    Str2Str × List String :=
  chunkLoop (metadata.getD []) 0 chunks

/-! ## Operational model of `chromemStore.Add`'s concurrency
(advisory.go:219-238)

The spawning loop acquires a semaphore token (`sem <- struct{}{}`,
channel of capacity `cap = c.concurrency`) and increments the WaitGroup
before launching each goroutine; each goroutine prepares its record,
releases its token (`<-sem`), then calls `wg.Done()`. The main flow
calls `wg.Wait()` and only then `AddDocuments`. States count tasks in
each phase; `n` is the batch size. -/

/-- A snapshot of `chromemStore.Add`'s control state. -/
structure AddState where
  spawned : Nat
  running : Nat
  released : Nat
  finished : Nat
  semUsed : Nat
  wgCount : Nat
  persisted : Bool
deriving Repr, DecidableEq

/-- The initial state: before the spawning loop, nothing launched and
the bulk-persist call not yet made. -/
def AddState.init : AddState :=
  { spawned := 0, running := 0, released := 0, finished := 0,
    semUsed := 0, wgCount := 0, persisted := false }

/-- One step of `chromemStore.Add`'s execution: spawn a goroutine
(gated by the semaphore), a goroutine releases its token after
preparing its record, a goroutine signals the WaitGroup, or the main
flow passes `wg.Wait()` and calls `AddDocuments`. -/
inductive AddStep (n cap : Nat) : AddState → AddState → Prop where
  | spawn (s : AddState) (hn : s.spawned < n) (hsem : s.semUsed < cap) :
      AddStep n cap s
        { s with spawned := s.spawned + 1, running := s.running + 1,
                 semUsed := s.semUsed + 1, wgCount := s.wgCount + 1 }
  | release (s : AddState) (hr : 0 < s.running) :
      AddStep n cap s
        { s with running := s.running - 1, released := s.released + 1,
                 semUsed := s.semUsed - 1 }
  | wgDone (s : AddState) (hr : 0 < s.released) :
      AddStep n cap s
        { s with released := s.released - 1, finished := s.finished + 1,
                 wgCount := s.wgCount - 1 }
  | persist (s : AddState) (hall : s.spawned = n) (hwg : s.wgCount = 0)
      (hp : s.persisted = false) :
      AddStep n cap s { s with persisted := true }

/-- The states `chromemStore.Add` can reach from its initial state. -/
inductive AddReach (n cap : Nat) : AddState → Prop where
  | init : AddReach n cap AddState.init
  | step {s s2 : AddState} : AddReach n cap s → AddStep n cap s s2 →
      AddReach n cap s2

/-- The inductive invariant of the `chromemStore.Add` model: semaphore
occupancy equals the goroutines still holding a token, the WaitGroup
counts the unfinished goroutines, the phase counts add up, at most `n`
goroutines are launched and at most `cap` hold a token, and once the
bulk-persist call is made all `n` goroutines are finished. -/
def AddInv (n cap : Nat) (s : AddState) : Prop :=
  s.semUsed = s.running ∧ s.wgCount = s.running + s.released
  ∧ s.spawned = s.running + s.released + s.finished
  ∧ s.spawned ≤ n ∧ s.running ≤ cap
  ∧ (s.persisted = true → s.finished = n)

/-! ## Concrete instances used by witnesses and counterexamples -/

/-- A query whose `Exact` map requires the empty string for key `"k"`. -/
def emptyValQuery : Query :=
  { Query := "", Exact := [("k", "")], Regex := [], Number := 1 }

/-- A result with no metadata at all. -/
def bareResult : Result Int :=
  { Document := { Content := "t", Metadata := [] }, Score := 0 }

/-- A query requiring `a = "1"` exactly. -/
def exactOneQuery : Query :=
  { Query := "", Exact := [("a", "1")], Regex := [], Number := 1 }

/-- A query with only a regex filter on key `"a"`. -/
def regexOneQuery : Query :=
  { Query := "", Exact := [], Regex := [("a", fun v => v == "1")], Number := 1 }

/-- A result carrying metadata `a = "1"`. -/
def aOneResult : Result Int :=
  { Document := { Content := "t", Metadata := [("a", "1")] }, Score := 0 }

/-- An unfiltered two-result query for the search theorems. -/
def plainQuery : Query :=
  { Query := "q", Exact := [], Regex := [], Number := 2 }

/-- Two ranked collaborator records in similarity-descending order. -/
def rankedRecords : List (ChromemResult Int) :=
  [{ Content := "x", Metadata := [], Similarity := 9 },
   { Content := "y", Metadata := [], Similarity := 5 }]

/-- A single collaborator record, enough to drive the nil-query filter
call in `chromemStore.Search`. -/
def oneRecord : ChromemResult Int :=
  { Content := "c", Metadata := [], Similarity := 0 }

/-- A pattern compiler that accepts everything: every pattern compiles
to a matcher accepting every string. -/
def allCompile : String → Option Matcher :=
  fun _ => some (fun _ => true)

/-- A pattern compiler on which the pattern `"("` does not compile
(as under `regexp.MustCompile`). -/
def parenFails : String → Option Matcher :=
  fun s => if s == "(" then none else some (fun _ => true)

/-! ## Helper lemmas -/

/-- A non-empty `Exact` map makes `Filter` take the exact branch,
whatever the `Regex` map holds. -/
theorem filter_of_exact_ne_nil {σ : Type} (q : GoQuery) (r : Result σ)
    (h : q.Exact ≠ []) :
    q.Filter r = q.Exact.all
      (fun kv => strGetD r.Document.Metadata kv.1 == kv.2) := by
  have hlen : q.Exact.length ≠ 0 := by
    simpa [List.length_eq_zero] using h
  simp [Query.Filter, hlen]

/-- If some value position fails to compile, the whole compilation loop
fails. -/
theorem compilePairs_none_of_bad (compile : String → Option Matcher)
    (ps : List (String × String))
    (h : ps.any (fun p => (compile p.2).isNone) = true) :
    compilePairs compile ps = none := by
  induction ps with
  | nil => simp at h
  | cons p rest ih =>
    simp only [List.any_cons, Bool.or_eq_true] at h
    rcases h with h | h
    · have hc : compile p.2 = none := by
        simpa [Option.isNone_iff_eq_none] using h
      simp [compilePairs, hc]
    · cases hc : compile p.2 with
      | none => simp [compilePairs, hc]
      | some m => simp [compilePairs, hc, ih h]

/-- With a non-nil query, the result loop of `chromemStore.Search` is
exactly a `filter` of the converted records. -/
theorem searchLoop_some_eq_filter {σ : Type} (q : GoQuery)
    (res : List (ChromemResult σ)) :
    searchLoop (some q) res = .ok ((res.map toResult).filter q.Filter) := by
  induction res with
  | nil => rfl
  | cons r rest ih =>
    simp [searchLoop, filterCall, ih, List.filter_cons]

/-- Every step of the `chromemStore.Add` model preserves the
invariant. -/
theorem addStep_inv (n cap : Nat) (s s2 : AddState)
    (hstep : AddStep n cap s s2) (ih : AddInv n cap s) : AddInv n cap s2 := by
  obtain ⟨i1, i2, i3, i4, i5, i6⟩ := ih
  cases hstep with
  | spawn hn hsem =>
    refine ⟨?_, ?_, ?_, ?_, ?_, ?_⟩
    · show s.semUsed + 1 = s.running + 1; omega
    · show s.wgCount + 1 = s.running + 1 + s.released; omega
    · show s.spawned + 1 = s.running + 1 + s.released + s.finished; omega
    · show s.spawned + 1 ≤ n; omega
    · show s.running + 1 ≤ cap; omega
    · exact i6
  | release hrun =>
    refine ⟨?_, ?_, ?_, i4, ?_, ?_⟩
    · show s.semUsed - 1 = s.running - 1; omega
    · show s.wgCount = s.running - 1 + (s.released + 1); omega
    · show s.spawned = s.running - 1 + (s.released + 1) + s.finished; omega
    · show s.running - 1 ≤ cap; omega
    · exact i6
  | wgDone hrel =>
    refine ⟨i1, ?_, ?_, i4, i5, ?_⟩
    · show s.wgCount - 1 = s.running + (s.released - 1); omega
    · show s.spawned = s.running + (s.released - 1) + (s.finished + 1); omega
    · intro hp
      have h6 := i6 hp
      show s.finished + 1 = n
      omega
  | persist hall hwg hp =>
    refine ⟨i1, i2, i3, i4, i5, ?_⟩
    intro _
    show s.finished = n
    omega

/-- Every reachable state of the `chromemStore.Add` model satisfies the
invariant. -/
theorem addReach_invariant (n cap : Nat) (s : AddState)
    (h : AddReach n cap s) : AddInv n cap s := by
  induction h with
  | init =>
    refine ⟨rfl, rfl, rfl, ?_, ?_, ?_⟩
    · show 0 ≤ n; omega
    · show 0 ≤ cap; omega
    · intro hp
      exact absurd hp (by simp [AddState.init])
  | step hr hstep ih => exact addStep_inv _ _ _ _ hstep ih

/-! ## Claims -/

/-- C1: for every two documents with identical `Content`, the stored
identifier derived by `chromemStore.Add` (the `ID` of the prepared
chromem record, advisory.go:228) is equal regardless of any difference
in `Metadata`: the identity is the MD5 content hash of the text alone. -/
theorem add_id_content_addressed (d1 d2 : Document)
    (h : d1.Content = d2.Content) :
    (chromemStore.prepareDoc d1).ID = (chromemStore.prepareDoc d2).ID := by
  simp [chromemStore.prepareDoc, h]

/-- Witness for C1: two documents with the same content and different
metadata receive the same identifier. -/
theorem add_id_content_addressed_witness :
    (Document.mk "The sky is blue." [("title", "a")]).Content
      = (Document.mk "The sky is blue." [("title", "b")]).Content
    ∧ (chromemStore.prepareDoc (Document.mk "The sky is blue." [("title", "a")])).ID
      = (chromemStore.prepareDoc (Document.mk "The sky is blue." [("title", "b")])).ID :=
  ⟨rfl, add_id_content_addressed
    (Document.mk "The sky is blue." [("title", "a")])
    (Document.mk "The sky is blue." [("title", "b")]) rfl⟩

/-- C2: with a non-nil query, `chromemStore.Search` returns exactly the
converted collaborator records satisfying `Query.Filter`, in order — a
sublist of the converted ranked records, hence preserving any pairwise
(e.g. similarity-descending) order of the underlying results — and when
the collaborator returns at most `Number` candidates the output has at
most `Number` results; the single candidate list `res` is all the
implementation ever consumes (no backfill lookup exists). -/
theorem search_filters_subsequence (σ : Type) (q : Query)
    (res : List (ChromemResult σ)) :
    chromemStore.Search (some q) res
      = .ok ((res.map toResult).filter q.Filter)
    ∧ ((res.map toResult).filter q.Filter).Sublist (res.map toResult)
    ∧ (∀ rel : Result σ → Result σ → Prop,
        (res.map toResult).Pairwise rel →
        ((res.map toResult).filter q.Filter).Pairwise rel)
    ∧ ((res.length : Int) ≤ (Query.setOrDefault (some q)).Number →
        (((res.map toResult).filter q.Filter).length : Int)
          ≤ (Query.setOrDefault (some q)).Number) := by
  refine ⟨searchLoop_some_eq_filter q res, List.filter_sublist _, ?_, ?_⟩
  · intro rel hp
    exact hp.sublist (List.filter_sublist _)
  · intro hn
    have hle := List.length_filter_le q.Filter (res.map toResult)
    have hm : (res.map toResult).length = res.length := List.length_map _ _
    omega

/-- Witness for C2: a concrete two-record ranked list passes through
unfiltered, stays similarity-descending, and respects the count bound. -/
theorem search_filters_subsequence_witness :
    chromemStore.Search (some plainQuery) rankedRecords
      = .ok ((rankedRecords.map toResult).filter plainQuery.Filter)
    ∧ ((rankedRecords.map toResult).filter plainQuery.Filter).Pairwise
        (fun a b => b.Score ≤ a.Score)
    ∧ (((rankedRecords.map toResult).filter plainQuery.Filter).length : Int)
        ≤ (Query.setOrDefault (some plainQuery)).Number := by
  have h := search_filters_subsequence Int plainQuery rankedRecords
  exact ⟨h.1, h.2.2.1 _ (by decide), h.2.2.2 (by decide)⟩

/-- Counterexample to C3 as stated: with `Exact = {"k": ""}` and a
result whose metadata lacks `"k"` entirely, `Filter` RETAINS the result
(the Go read `md["k"]` yields `""`, which equals the required value),
although the key is absent — the claim demands it be filtered out. -/
theorem filter_absent_key_retained_counterexample :
    emptyValQuery.Filter bareResult = true
    ∧ List.lookup "k" bareResult.Document.Metadata = none
    ∧ ¬(∀ kv ∈ emptyValQuery.Exact,
        List.lookup kv.1 bareResult.Document.Metadata = some kv.2) := by
  refine ⟨by decide, by decide, ?_⟩
  intro hall
  have := hall ("k", "") (by decide)
  simp [bareResult] at this

/-- C3 amended: for every query with non-empty `Exact`, `Filter` retains
a result iff every required pair matches the metadata value read with
Go's zero-value default — an absent key reads as `""` — so an absent key
causes filtering out exactly when its required value is non-empty. -/
theorem filter_exact_semantics (σ : Type) (q : Query) (r : Result σ)
    (h : q.Exact ≠ []) :
    (q.Filter r = true ↔
      ∀ kv ∈ q.Exact, strGetD r.Document.Metadata kv.1 = kv.2) := by
  rw [filter_of_exact_ne_nil q r h]
  simp [List.all_eq_true]

/-- Witness for C3's amended statement, at a query requiring `a = "1"`
and a result carrying exactly that metadata. -/
theorem filter_exact_semantics_witness :
    exactOneQuery.Exact ≠ []
    ∧ (exactOneQuery.Filter aOneResult = true ↔
        ∀ kv ∈ exactOneQuery.Exact,
          strGetD aOneResult.Document.Metadata kv.1 = kv.2) :=
  ⟨by decide, filter_exact_semantics Int exactOneQuery aOneResult (by decide)⟩

/-- C4: when `Exact` is non-empty, `Filter` evaluates only the exact
predicate — the result is the same whatever the `Regex` map is replaced
with — and the regex predicate is evaluated only when `Exact` is empty. -/
theorem filter_exact_precedence (σ : Type) (q : Query) (r : Result σ) :
    (q.Exact ≠ [] → ∀ rg : List (String × Matcher),
      Query.Filter { q with Regex := rg } r
        = q.Exact.all (fun kv => strGetD r.Document.Metadata kv.1 == kv.2))
    ∧ (q.Exact = [] → q.Regex ≠ [] →
      q.Filter r
        = q.Regex.all (fun kr => kr.2 (strGetD r.Document.Metadata kr.1))) := by
  constructor
  · intro h rg
    exact filter_of_exact_ne_nil { q with Regex := rg } r h
  · intro he hr
    have hlen : q.Regex.length ≠ 0 := by
      simpa [List.length_eq_zero] using hr
    simp [Query.Filter, he, hlen]

/-- Witness for C4: a populated `Exact` ignores a would-be-failing regex
map, and a regex-only query evaluates its regex map. -/
theorem filter_exact_precedence_witness :
    Query.Filter { exactOneQuery with Regex := [("a", fun _ => false)] } aOneResult
      = exactOneQuery.Exact.all
          (fun kv => strGetD aOneResult.Document.Metadata kv.1 == kv.2)
    ∧ regexOneQuery.Filter aOneResult
      = regexOneQuery.Regex.all
          (fun kr => kr.2 (strGetD aOneResult.Document.Metadata kr.1)) :=
  ⟨(filter_exact_precedence Int exactOneQuery aOneResult).1 (by decide) _,
   (filter_exact_precedence Int regexOneQuery aOneResult).2 rfl
     (List.cons_ne_nil _ _)⟩

/-- C5's divergence witnessed on the code: `NewQuery` calls `WithQuery`
on the NON-nil zero query `&Query{}` (advisory.go:125), so
`setOrDefault` never substitutes the default and the returned query has
`Number = 0`, not `1` as the claim states. -/
theorem newQuery_number_zero :
    (NewQuery "x").Query = "x" ∧ (NewQuery "x").Number = 0 := ⟨rfl, rfl⟩

/-- C6: every `With*` builder method invoked on a nil query with valid
arguments succeeds and yields the defaulted query (`Number = 1`) with
just its own field set (`WithNumber` sets `Number` itself). -/
theorem with_builders_nil_default (t : String) (kv kv2 : List String)
    (compile : String → Option Matcher) (n : Int)
    (m : List (String × Matcher))
    (h1 : kv.length % 2 = 0) (h2 : kv2.length % 2 = 0)
    (hc : compilePairs compile (toPairs kv2) = some m) :
    Query.WithQuery none t = { Query := t, Exact := [], Regex := [], Number := 1 }
    ∧ Query.WithExact none kv
        = .ok { Query := "", Exact := buildMap (toPairs kv), Regex := [], Number := 1 }
    ∧ Query.WithRegex compile none kv2
        = .ok { Query := "", Exact := [], Regex := buildMap m, Number := 1 }
    ∧ Query.WithNumber none n
        = { Query := "", Exact := [], Regex := [], Number := n } := by
  refine ⟨rfl, ?_, ?_, rfl⟩
  · simp [Query.WithExact, h1, Query.setOrDefault]
  · simp [Query.WithRegex, h2, hc, Query.setOrDefault]

/-- Witness for C6 at concrete arguments: each builder on `nil` yields
`Number = 1` (resp. the number set by `WithNumber`). -/
theorem with_builders_nil_default_witness :
    (["k", "v"].length % 2 = 0)
    ∧ Query.WithQuery none "a"
        = { Query := "a", Exact := [], Regex := [], Number := 1 }
    ∧ Query.WithExact none ["k", "v"]
        = .ok { Query := "", Exact := buildMap (toPairs ["k", "v"]),
                Regex := [], Number := 1 }
    ∧ Query.WithRegex allCompile none ["r", "p"]
        = .ok { Query := "", Exact := [],
                Regex := buildMap [("r", fun _ => true)], Number := 1 }
    ∧ Query.WithNumber none 7
        = { Query := "", Exact := [], Regex := [], Number := 7 } := by
  have h := with_builders_nil_default "a" ["k", "v"] ["r", "p"] allCompile 7
    [("r", fun _ => true)] (by decide) (by decide) rfl
  exact ⟨by decide, h.1, h.2.1, h.2.2.1, h.2.2.2⟩

/-- C7's divergence witnessed on the code: `chromemStore.Search` with a
nil query normalizes `q := query.setOrDefault()` for the collaborator
call (so `NResults = 1`), but the filter call at advisory.go:260 is on
the ORIGINAL nil `query`; as soon as the collaborator returns a record,
`Filter` dereferences the nil receiver (`q.Exact`) and the call faults
instead of completing unfiltered. -/
theorem search_nil_query_faults :
    chromemStore.Search none [oneRecord] = .error .nilDeref
    ∧ (Query.setOrDefault none).Number = 1
    ∧ chromemStore.Search (σ := Int) none [] = .ok [] :=
  ⟨rfl, rfl, rfl⟩

/-- C8: `WithExact` and `WithRegex` with an odd key/value list panic at
construction, and `WithRegex` with a pattern that does not compile
panics at construction — a `GoFault.panicked`, not an error return. -/
theorem with_kv_construction_panics (q1 q2 q3 : Option Query)
    (kv kv2 kv3 : List String) (compile badc : String → Option Matcher)
    (h1 : kv.length % 2 = 1) (h2 : kv2.length % 2 = 1)
    (h3 : kv3.length % 2 = 0)
    (hbad : (toPairs kv3).any (fun p => (badc p.2).isNone) = true) :
    Query.WithExact q1 kv = .error (.panicked "key-values are not in pairs.")
    ∧ Query.WithRegex compile q2 kv2
        = .error (.panicked "key-values are not in pairs.")
    ∧ Query.WithRegex badc q3 kv3
        = .error (.panicked "regexp: Compile: invalid pattern") := by
  refine ⟨?_, ?_, ?_⟩
  · simp [Query.WithExact, h1]
  · simp [Query.WithRegex, h2]
  · simp [Query.WithRegex, h3, compilePairs_none_of_bad badc _ hbad]

/-- Witness for C8: a one-element key/value list panics in both
builders, and the non-compiling pattern `"("` panics in `WithRegex`. -/
theorem with_kv_construction_panics_witness :
    (["a"].length % 2 = 1)
    ∧ Query.WithExact none ["a"]
        = .error (.panicked "key-values are not in pairs.")
    ∧ Query.WithRegex parenFails none ["b"]
        = .error (.panicked "key-values are not in pairs.")
    ∧ Query.WithRegex parenFails none ["k", "("]
        = .error (.panicked "regexp: Compile: invalid pattern") := by
  have h := with_kv_construction_panics none none none ["a"] ["b"] ["k", "("]
    parenFails parenFails (by decide) (by decide) (by decide) (by decide)
  exact ⟨by decide, h.1, h.2.1, h.2.2⟩

/-- C9's divergence witnessed on the code: `chunkMarkdown` stores the
SAME map into every document's `Metadata` and mutates it each iteration
(advisory.go:43-49), so after the call every document — including the
first — observes `chunk = "1"` on a two-chunk input, not its own index
`"0"`. -/
theorem chunkMarkdown_shared_metadata :
    (chunkMarkdown ["a", "b"] none).2 = ["a", "b"]
    ∧ strGetD (chunkMarkdown ["a", "b"] none).1 "chunk" = "1"
    ∧ strGetD (chunkMarkdown ["a", "b"] none).1 "chunk" ≠ "0" := by
  refine ⟨rfl, rfl, by decide⟩

/-- C10: in every reachable state of the `chromemStore.Add` concurrency
model, at most `cap = c.concurrency` preparation goroutines hold a
semaphore token at once, and the bulk-persist call is made only after
all `n` preparation goroutines have completed (the `wg.Wait()` join
barrier). -/
theorem add_concurrency_bounded_join (n cap : Nat) (s : AddState)
    (h : AddReach n cap s) :
    s.running ≤ cap ∧ s.semUsed ≤ cap
    ∧ (s.persisted = true → s.finished = n) := by
  obtain ⟨i1, i2, i3, i4, i5, i6⟩ := addReach_invariant n cap s h
  exact ⟨i5, by omega, i6⟩

/-- Witness for C10: a complete one-document run with concurrency bound
one — spawn, release, `wg.Done`, then persist — reaches a persisted
state with the bound respected and the task finished. -/
theorem add_concurrency_bounded_join_witness :
    ({ spawned := 1, running := 0, released := 0, finished := 1,
       semUsed := 0, wgCount := 0, persisted := true } : AddState).running ≤ 1
    ∧ ({ spawned := 1, running := 0, released := 0, finished := 1,
         semUsed := 0, wgCount := 0, persisted := true } : AddState).semUsed ≤ 1
    ∧ (({ spawned := 1, running := 0, released := 0, finished := 1,
          semUsed := 0, wgCount := 0, persisted := true } : AddState).persisted = true →
        ({ spawned := 1, running := 0, released := 0, finished := 1,
           semUsed := 0, wgCount := 0, persisted := true } : AddState).finished = 1) := by
  have hreach : AddReach 1 1
      { spawned := 1, running := 0, released := 0, finished := 1,
        semUsed := 0, wgCount := 0, persisted := true } :=
    AddReach.step
      (AddReach.step
        (AddReach.step
          (AddReach.step AddReach.init
            (AddStep.spawn AddState.init (by decide) (by decide)))
          (AddStep.release _ (by decide)))
        (AddStep.wgDone _ (by decide)))
      (AddStep.persist _ (by decide) (by decide) (by decide))
  exact add_concurrency_bounded_join 1 1 _ hreach
